import Mathlib

/-!
Verification development for the HearHere real-time transcription program
(`src/alphaVersion.py`).

The file shallowly embeds the parts of the program the specification talks
about:

* the transcript reconciliation logic in the body of `receive_transcription`
  (source lines 166-201): mutable variables `last_partial` / `last_final`
  (here the fields `lastInterim` / `lastFinal` of `TranscriptState`; the field
  `lastInterim` renames the source's first variable because of local naming
  constraints) and the text-box updates, abstracted per the specification's
  data model into `DisplayCommand`s: the pair
  `text_box.delete("end-1c linestart", "end"); text_box.insert("end", t)` is
  `ReplaceTrailingLine t`, and the same pair inserting `t + " "` in the
  final branch is `CommitLine (t ++ " ")`;
* the decoding of an inbound message (lines 172-177): a JSON object that may
  lack a `"results"` key, and otherwise is indexed at `["results"][0]`,
  `["alternatives"][0]["transcript"]` and `["final"]` — a missing index
  raises, which the surrounding `try` turns into the reconnect path, so the
  embedding returns `Except`;
* the orchestration code (`connect_and_transcribe`, `listen_and_stream`,
  `restart_stream`, `on_closing`, and the module-level startup code, lines
  113-277), embedded as the finite traces of primitive effects (`Action`)
  each code path performs, together with a resource/loop-accounting state
  (`SysState`) updated by those effects.
-/

/-- Display commands of the specification's `DisplaySink` contract: the
abstraction of the two `text_box` update patterns in the source. -/
inductive DisplayCommand where
  | ReplaceTrailingLine (t : String)
  | CommitLine (t : String)
deriving DecidableEq, Repr

/-- Recognition events per the specification's data model.  `PartialText` /
`FinalText` correspond to a decoded message with `final` false / true;
`ConnectionClosed` is `WebSocketConnectionClosedException` raised out of
`ws.recv()`; `ConnectionError` is any other exception of the receive path. -/
inductive RecognitionEvent where
  | PartialText (t : String)
  | FinalText (t : String)
  | ConnectionClosed
  | ConnectionError (cause : String)
deriving DecidableEq, Repr

/-- The reconciler state: source lines 167-168, `last_partial = ""` and
`last_final = ""` (field `lastInterim` embeds `last_partial`). -/
structure TranscriptState where
  lastInterim : String
  lastFinal : String
deriving DecidableEq, Repr

/-- The state the receive loop starts with (source lines 167-168). -/
def init_transcript : TranscriptState := ⟨"", ""⟩

/-- Body of the receive loop for one decoded result, source lines 180-197.
The code branches on `is_final`; in each branch it compares the transcript
with the remembered one and either does nothing or rewrites the trailing
line and updates the remembered transcripts.  Returns the new state and the
emitted display commands (the source emits at most one per result). -/
def receive_transcription_body (s : TranscriptState) (transcript : String)
    (is_final : Bool) : TranscriptState × List DisplayCommand :=
  if is_final then
    -- lines 182-190: `if transcript != last_final`
    if transcript ≠ s.lastFinal then
      ({ lastInterim := "", lastFinal := transcript },
       [DisplayCommand.CommitLine (transcript ++ " ")])
    else (s, [])
  else
    -- lines 191-197: `if transcript != last_partial`
    if transcript ≠ s.lastInterim then
      ({ lastInterim := transcript, lastFinal := s.lastFinal },
       [DisplayCommand.ReplaceTrailingLine transcript])
    else (s, [])

/-- The reconciler as a function of a `RecognitionEvent`.  Text events go
through `receive_transcription_body`; the connection events leave the
reconciler state untouched (in the source they are exceptions that exit the
loop without running lines 180-197; their handling is embedded separately as
`on_connection_lost`). -/
def reconcile (s : TranscriptState) :
    RecognitionEvent → TranscriptState × List DisplayCommand
  | RecognitionEvent.PartialText t => receive_transcription_body s t false
  | RecognitionEvent.FinalText t => receive_transcription_body s t true
  | RecognitionEvent.ConnectionClosed => (s, [])
  | RecognitionEvent.ConnectionError _ => (s, [])

/-- Iterate the reconciler over an event sequence, concatenating emitted
display commands in order (the receive loop processes messages strictly in
arrival order). -/
def run_events (s : TranscriptState) :
    List RecognitionEvent → TranscriptState × List DisplayCommand
  | [] => (s, [])
  | e :: es =>
    ((run_events (reconcile s e).1 es).1,
     (reconcile s e).2 ++ (run_events (reconcile s e).1 es).2)

/-- Values of a string sequence that differ from the running previous value,
starting from `p`: the positions at which the reconciler's duplicate
suppression lets a partial result through. -/
def dedupFrom (p : String) : List String → List String
  | [] => []
  | t :: rest => if t = p then dedupFrom p rest else t :: dedupFrom t rest

/-- Number of `CommitLine` commands in a command list. -/
def countCommit (cs : List DisplayCommand) : Nat :=
  cs.countP (fun c => match c with
    | DisplayCommand.CommitLine _ => true
    | _ => false)

/-- One alternative of a recognition result: the object at
`["alternatives"][i]`, of which the source reads `["transcript"]`. -/
structure AltTranscript where
  transcript : String
deriving DecidableEq, Repr

/-- One recognition result: the object at `["results"][i]`; the source reads
its `["alternatives"]` list and its `["final"]` flag. -/
structure RecResult where
  alternatives : List AltTranscript
  final : Bool
deriving DecidableEq, Repr

/-- A decoded inbound message: `json.loads(result)` at line 173.  `results`
is `none` when the object has no `"results"` key (line 175's membership test
fails). -/
structure WatsonMessage where
  results : Option (List RecResult)
deriving DecidableEq, Repr

/-- Processing of one decoded message, source lines 175-197.  When the
`"results"` key is absent the body under the `if` is skipped entirely.  When
it is present the source indexes `["results"][0]` and
`["alternatives"][0]`; an out-of-range index raises, which the enclosing
`try` converts into the reconnect path — embedded as `Except.error`. -/
def process_message (s : TranscriptState) (m : WatsonMessage) :
    Except String (TranscriptState × List DisplayCommand) :=
  match m.results with
  | none => Except.ok (s, [])
  | some rs =>
    match rs with
    | [] => Except.error "IndexError: results"
    | r0 :: _ =>
      match r0.alternatives with
      | [] => Except.error "IndexError: alternatives"
      | a0 :: _ => Except.ok (receive_transcription_body s a0.transcript r0.final)

/-- The receive loop over a finite prefix of inbound messages: processes
them in order, accumulating display commands; an error (raised exception)
exits the loop at that point, abandoning the remaining messages. -/
def receive_transcription_loop (s : TranscriptState) :
    List WatsonMessage → TranscriptState × List DisplayCommand
  | [] => (s, [])
  | m :: ms =>
    match process_message s m with
    | Except.error _ => (s, [])
    | Except.ok (s1, out) =>
      ((receive_transcription_loop s1 ms).1,
       out ++ (receive_transcription_loop s1 ms).2)

/-- The display surface per the specification's `DisplaySink` contract
(external collaborator: the Tk text box): a sealed history plus one
replaceable trailing line. -/
structure Display where
  history : List String
  trailing : String
deriving DecidableEq, Repr

/-- Effect of one display command on the display surface. -/
def applyCommand (d : Display) : DisplayCommand → Display
  | DisplayCommand.ReplaceTrailingLine t => { d with trailing := t }
  | DisplayCommand.CommitLine t => { history := d.history ++ [t], trailing := "" }

/-- Apply a command sequence in order. -/
def applyCommands (d : Display) (cs : List DisplayCommand) : Display :=
  cs.foldl applyCommand d

/-- The handshake control message built at lines 131-139 (`init_message =
json.dumps({...})`); `contentType` embeds the `"content-type"` key. -/
structure InitMessage where
  action : String
  contentType : String
  interim_results : Bool
  timestamps : Bool
  inactivity_timeout : Int
deriving DecidableEq, Repr

/-- The concrete control message of lines 132-138. -/
def init_message : InitMessage :=
  { action := "start"
    contentType := "audio/l16; rate=16000; channels=1"
    interim_results := true
    timestamps := false
    inactivity_timeout := -1 }

/-- The standard base64 alphabet used by `base64.b64encode`. -/
def base64Alphabet : List Char :=
  "ABCDEFGHIJKLMNOPQRSTUVWXYZabcdefghijklmnopqrstuvwxyz0123456789+/".toList

/-- Character of the base64 alphabet at a 6-bit index. -/
def base64Char (n : Nat) : Char := base64Alphabet.getD n '='

/-- RFC 4648 base64 of a byte sequence (bytes as `Nat`, reduced mod 256),
the function computed by `base64.b64encode` at line 64. -/
def b64encode : List Nat → List Char
  | [] => []
  | [b1] =>
    [base64Char (b1 % 256 / 4), base64Char (b1 % 256 % 4 * 16), '=', '=']
  | [b1, b2] =>
    [base64Char (b1 % 256 / 4), base64Char (b1 % 256 % 4 * 16 + b2 % 256 / 16),
     base64Char (b2 % 256 % 16 * 4), '=']
  | b1 :: b2 :: b3 :: rest =>
    base64Char (b1 % 256 / 4) ::
      base64Char (b1 % 256 % 4 * 16 + b2 % 256 / 16) ::
      base64Char (b2 % 256 % 16 * 4 + b3 % 256 / 64) ::
      base64Char (b3 % 256 % 64) :: b64encode rest

/-- Bytes of an ASCII string (code points; equal to the UTF-8 bytes for the
ASCII strings involved). -/
def stringBytes (s : String) : List Nat := s.toList.map Char.toNat

/-- The fixed credential label: the `"apikey:"` piece of line 63's
`auth_string = f"apikey:{api_key}"`. -/
def apikeyTag : List Nat := stringBytes "apikey:"

/-- Line 63: the fixed label followed by the credential bytes. -/
def auth_string (key : List Nat) : List Nat := apikeyTag ++ key

/-- Line 64: `base64.b64encode(auth_string.encode()).decode()`. -/
def auth_base64 (key : List Nat) : String := String.mk (b64encode (auth_string key))

/-- Line 126: `headers = [f"Authorization: Basic {auth_base64}"]`, the
header list passed to every `create_connection` call. -/
def connect_headers (key : List Nat) : List String :=
  ["Authorization: Basic " ++ auth_base64 key]

/-- Primitive effects the orchestration code performs, in program order.
`wsClose` is the effect the `websocket` library's `close()` would have; it is
included so that its absence from every embedded code path is expressible —
no statement in `src/alphaVersion.py` ever closes a websocket. -/
inductive SysAct where
  | wsCreate
  | wsCreateFail
  | wsSendText (m : InitMessage)
  | wsSendBinary
  | wsClose (h : Nat)
  | spawnReceive
  | spawnCapture
  | audioStopStream
  | audioCloseStream
  | audioOpenStream
  | audioTerminate
  | sleepSeconds (n : Nat)
  | printLog (msg : String)
  | rootDestroy
deriving DecidableEq, Repr

/-- Effect trace of `connect_and_transcribe` (lines 128-148), parameterised
by the number of failed `create_connection` attempts before the one that
succeeds (the `while True` retries indefinitely; every terminating execution
is some instance of this trace).  A failed attempt logs and sleeps 2 seconds
(lines 146-148); the successful attempt sends the handshake message, logs,
and spawns a new `receive_transcription` thread (lines 130-144). -/
def connect_and_transcribe_run : Nat → List SysAct
  | 0 => [SysAct.wsCreate, SysAct.wsSendText init_message,
          SysAct.printLog "Connected to IBM Watson Speech-to-Text. Listening...",
          SysAct.spawnReceive]
  | n + 1 =>
    SysAct.wsCreateFail :: SysAct.printLog "Failed to connect. Retrying in 2 seconds..." ::
      SysAct.sleepSeconds 2 :: connect_and_transcribe_run n

/-- Effect trace of the module-level startup code (lines 275-276):
`ws = connect_and_transcribe()` followed by spawning `listen_and_stream`
on that handle. -/
def startup_run (failures : Nat) : List SysAct :=
  connect_and_transcribe_run failures ++ [SysAct.spawnCapture]

/-- Outcome of one capture-loop iteration (lines 226-228): the frame read
raises, or the read succeeds and the send raises, or both succeed. -/
inductive CaptureEvent where
  | iterOk
  | frameReadFailure
  | sendFailure
deriving DecidableEq, Repr

/-- Effect trace of `restart_stream` up to its tail call (lines 246-252):
stop and close the device stream, sleep one second, reopen the device. -/
def restart_stream_actions : List SysAct :=
  [SysAct.audioStopStream, SysAct.audioCloseStream, SysAct.sleepSeconds 1,
   SysAct.audioOpenStream]

/-- Effect trace of `listen_and_stream` (lines 212-253) over a finite prefix
of iteration outcomes.  An exception raised by either `stream.read` or
`ws.send` reaches the same `except` clause (lines 229-231), which logs and
calls `restart_stream`, and `restart_stream` re-enters `listen_and_stream`
with the same handle (line 253) — so after any failure the loop restarts the
audio device and keeps capturing; it never exits of its own accord and never
touches the connection. -/
def listen_and_stream_run : List CaptureEvent → List SysAct
  | [] => []
  | CaptureEvent.iterOk :: rest => SysAct.wsSendBinary :: listen_and_stream_run rest
  | CaptureEvent.frameReadFailure :: rest =>
    SysAct.printLog "Audio streaming error" ::
      restart_stream_actions ++ listen_and_stream_run rest
  | CaptureEvent.sendFailure :: rest =>
    SysAct.printLog "Audio streaming error" ::
      restart_stream_actions ++ listen_and_stream_run rest

/-- Effect trace of `on_closing` (lines 256-269): stop and close the device
stream, terminate PyAudio, log, destroy the Tk root.  No websocket effect
appears. -/
def on_closing_actions : List SysAct :=
  [SysAct.audioStopStream, SysAct.audioCloseStream, SysAct.audioTerminate,
   SysAct.printLog "Audio stream closed.", SysAct.rootDestroy]

/-- Effect trace of the receive loop's exception handlers (lines 203-209):
the `WebSocketConnectionClosedException` branch logs and reconnects; any
other exception logs, sleeps 2 seconds, and reconnects.  Both re-enter
`connect_and_transcribe`. -/
def receive_loop_exit_actions (closedCleanly : Bool) (failures : Nat) : List SysAct :=
  (if closedCleanly then
    [SysAct.printLog "WebSocket connection closed. Reconnecting..."]
   else
    [SysAct.printLog "Unexpected WebSocket error. Attempting reconnection...",
     SysAct.sleepSeconds 2]) ++
  connect_and_transcribe_run failures

/-- Resource and loop accounting for the whole process.  Socket handles are
numbered in creation order; `openSockets` holds every handle created and not
closed; `captureHandle` / `receiveHandle` record which handle the live
capture / receive loop reads (`ws.send` / `ws.recv`); `currentHandle` is the
most recently created connection; `audioStreamOpen` is the device stream
opened at line 105 (toggled by `restart_stream` and `on_closing`);
`captureLoops` / `receiveLoops` count threads currently inside their
`while True` loop. -/
structure SysState where
  nextHandle : Nat
  currentHandle : Option Nat
  captureHandle : Option Nat
  receiveHandle : Option Nat
  openSockets : List Nat
  audioStreamOpen : Bool
  audioTerminated : Bool
  guiOpen : Bool
  captureLoops : Nat
  receiveLoops : Nat
deriving DecidableEq, Repr

/-- Effect of one primitive action on the accounting state.  `spawnReceive`
and `spawnCapture` bind the new loop to the connection current at spawn time
— exactly how `connect_and_transcribe` passes its fresh `ws` to the new
`receive_transcription` thread, and how line 276 passes the startup `ws` to
`listen_and_stream`. -/
def applyAction (s : SysState) : SysAct → SysState
  | SysAct.wsCreate =>
    { s with nextHandle := s.nextHandle + 1
             currentHandle := some s.nextHandle
             openSockets := s.openSockets ++ [s.nextHandle] }
  | SysAct.wsCreateFail => s
  | SysAct.wsSendText _ => s
  | SysAct.wsSendBinary => s
  | SysAct.wsClose h => { s with openSockets := s.openSockets.filter (fun x => x ≠ h) }
  | SysAct.spawnReceive =>
    { s with receiveHandle := s.currentHandle, receiveLoops := s.receiveLoops + 1 }
  | SysAct.spawnCapture =>
    { s with captureHandle := s.currentHandle, captureLoops := s.captureLoops + 1 }
  | SysAct.audioStopStream => s
  | SysAct.audioCloseStream => { s with audioStreamOpen := false }
  | SysAct.audioOpenStream => { s with audioStreamOpen := true }
  | SysAct.audioTerminate => { s with audioTerminated := true }
  | SysAct.sleepSeconds _ => s
  | SysAct.printLog _ => s
  | SysAct.rootDestroy => { s with guiOpen := false }

/-- Apply a trace of actions in order. -/
def applyActions (s : SysState) : List SysAct → SysState
  | [] => s
  | a :: as => applyActions (applyAction s a) as

/-- Process state just before line 275: the device stream is open (line
105), the GUI exists, no connection has been made and no loop spawned. -/
def initState : SysState :=
  { nextHandle := 0, currentHandle := none, captureHandle := none,
    receiveHandle := none, openSockets := [], audioStreamOpen := true,
    audioTerminated := false, guiOpen := true, captureLoops := 0,
    receiveLoops := 0 }

/-- Combined transition for a mid-stream connection loss observed by the
receive loop: the thread has permanently left its `while True` loop (one
live receive loop fewer), then runs its handler
(`receive_loop_exit_actions`), which re-enters `connect_and_transcribe`. -/
def on_connection_lost (s : SysState) (closedCleanly : Bool) (failures : Nat) :
    SysState :=
  applyActions { s with receiveLoops := s.receiveLoops - 1 }
    (receive_loop_exit_actions closedCleanly failures)

/-- Actions that close, open, or otherwise alter the audio device. -/
def touchesAudioDevice : SysAct → Bool
  | SysAct.audioStopStream => true
  | SysAct.audioCloseStream => true
  | SysAct.audioOpenStream => true
  | SysAct.audioTerminate => true
  | _ => false

/-- Actions that establish (or attempt to establish) a connection or spawn a
receive loop: the constituents of the reconnect path. -/
def isConnectAction : SysAct → Bool
  | SysAct.wsCreate => true
  | SysAct.wsCreateFail => true
  | SysAct.spawnReceive => true
  | _ => false

/-- Actions that close a websocket. -/
def isSocketClose : SysAct → Bool
  | SysAct.wsClose _ => true
  | _ => false

/-- The handshake messages sent over a trace, in order. -/
def initSends (as : List SysAct) : List InitMessage :=
  as.filterMap (fun a => match a with
    | SysAct.wsSendText m => some m
    | _ => none)

/-- Running any sequence of partial-text events emits exactly one
`ReplaceTrailingLine` per value that differs from the running last partial
transcript (starting from the state's), and none for repeated values. -/
theorem run_interim_emissions (ts : List String) : ∀ s : TranscriptState,
    (run_events s (ts.map RecognitionEvent.PartialText)).2 =
      (dedupFrom s.lastInterim ts).map DisplayCommand.ReplaceTrailingLine := by
  induction ts with
  | nil => intro s; rfl
  | cons t rest ih =>
    intro s
    by_cases h : t = s.lastInterim
    · simp [run_events, reconcile, receive_transcription_body, dedupFrom, h, ih s]
    · simp [run_events, reconcile, receive_transcription_body, dedupFrom, h,
        ih { lastInterim := t, lastFinal := s.lastFinal }]

/-- Claim C1: for every `RecognitionEvent` processed by the reconciler: on
`PartialText t`, if `t` equals the last partial transcript nothing is
emitted and the state is unchanged, otherwise the last partial transcript
becomes `t` and exactly `ReplaceTrailingLine t` is emitted; on `FinalText
t`, if `t` equals the last final transcript nothing is emitted and the state
is unchanged, otherwise the last final transcript becomes `t`, the last
partial transcript is cleared, and exactly `CommitLine (t ++ " ")` is
emitted. -/
theorem C1_reconciler_step (s : TranscriptState) (t : String) :
    (t = s.lastInterim → reconcile s (RecognitionEvent.PartialText t) = (s, [])) ∧
    (t ≠ s.lastInterim → reconcile s (RecognitionEvent.PartialText t) =
      ({ lastInterim := t, lastFinal := s.lastFinal },
       [DisplayCommand.ReplaceTrailingLine t])) ∧
    (t = s.lastFinal → reconcile s (RecognitionEvent.FinalText t) = (s, [])) ∧
    (t ≠ s.lastFinal → reconcile s (RecognitionEvent.FinalText t) =
      ({ lastInterim := "", lastFinal := t },
       [DisplayCommand.CommitLine (t ++ " ")])) := by
  refine ⟨fun h => ?_, fun h => ?_, fun h => ?_, fun h => ?_⟩ <;>
    simp [reconcile, receive_transcription_body, h]

/-- Witness for C1 at concrete states and transcripts. -/
theorem C1_witness :
    reconcile ⟨"a", "b"⟩ (RecognitionEvent.PartialText "a") = (⟨"a", "b"⟩, []) ∧
    reconcile ⟨"a", "b"⟩ (RecognitionEvent.PartialText "c") =
      (⟨"c", "b"⟩, [DisplayCommand.ReplaceTrailingLine "c"]) ∧
    reconcile ⟨"a", "b"⟩ (RecognitionEvent.FinalText "b") = (⟨"a", "b"⟩, []) ∧
    reconcile ⟨"a", "b"⟩ (RecognitionEvent.FinalText "c") =
      (⟨"", "c"⟩, [DisplayCommand.CommitLine ("c" ++ " ")]) :=
  ⟨(C1_reconciler_step ⟨"a", "b"⟩ "a").1 rfl,
   (C1_reconciler_step ⟨"a", "b"⟩ "c").2.1 (by decide),
   (C1_reconciler_step ⟨"a", "b"⟩ "b").2.2.1 rfl,
   (C1_reconciler_step ⟨"a", "b"⟩ "c").2.2.2 (by decide)⟩

/-- Claim C2: from the empty transcript state, the event sequence
`[PartialText "hel", PartialText "hello", FinalText "hello there"]` produces
exactly `[ReplaceTrailingLine "hel", ReplaceTrailingLine "hello",
CommitLine "hello there "]`, in that order. -/
theorem C2_scenario :
    run_events init_transcript
      [RecognitionEvent.PartialText "hel", RecognitionEvent.PartialText "hello",
       RecognitionEvent.FinalText "hello there"] =
      (⟨"", "hello there"⟩,
       [DisplayCommand.ReplaceTrailingLine "hel",
        DisplayCommand.ReplaceTrailingLine "hello",
        DisplayCommand.CommitLine "hello there "]) := by
  decide

/-- Claim C3 counterexample: the claim as stated quantifies over every
subsequently delivered partial-text event.  After `PartialText "hel"` and
`FinalText "hi"` the state is `⟨"", "hi"⟩`, and delivering
`PartialText ""` there emits no command at all (the empty transcript equals
the cleared last partial, so line 193's inequality test fails) — not a
fresh `ReplaceTrailingLine`. -/
theorem C3_counterexample :
    (run_events init_transcript
      [RecognitionEvent.PartialText "hel", RecognitionEvent.FinalText "hi"]).1 =
      ⟨"", "hi"⟩ ∧
    (reconcile ⟨"", "hi"⟩ (RecognitionEvent.PartialText "")).2 = [] := by
  decide

/-- Claim C3 (amended): for every prior sequence of partial-text events and
every `FinalText t` with `t` different from the current last final
transcript, the reconciler emits exactly one `CommitLine (t ++ " ")`,
afterwards the last partial transcript is empty, and any subsequently
delivered `PartialText u` with `u` nonempty (that is, different from the
cleared last partial) emits a fresh `ReplaceTrailingLine u`; a subsequent
`PartialText ""` is suppressed as a duplicate of the cleared partial. -/
theorem C3_commit_clears (s : TranscriptState) (ts : List String) (t : String)
    (hf : t ≠ (run_events s (ts.map RecognitionEvent.PartialText)).1.lastFinal) :
    (reconcile (run_events s (ts.map RecognitionEvent.PartialText)).1
      (RecognitionEvent.FinalText t)).2 = [DisplayCommand.CommitLine (t ++ " ")] ∧
    (reconcile (run_events s (ts.map RecognitionEvent.PartialText)).1
      (RecognitionEvent.FinalText t)).1.lastInterim = "" ∧
    (∀ u : String, u ≠ "" →
      (reconcile (reconcile (run_events s (ts.map RecognitionEvent.PartialText)).1
        (RecognitionEvent.FinalText t)).1 (RecognitionEvent.PartialText u)).2 =
        [DisplayCommand.ReplaceTrailingLine u]) := by
  refine ⟨?_, ?_, ?_⟩
  · simp [reconcile, receive_transcription_body, hf]
  · simp [reconcile, receive_transcription_body, hf]
  · intro u hu
    simp [reconcile, receive_transcription_body, hf, hu]

/-- Witness for the amended C3 at a concrete prior sequence and final. -/
theorem C3_witness :
    ("hi" ≠ (run_events init_transcript
      (["hel"].map RecognitionEvent.PartialText)).1.lastFinal) ∧
    (reconcile (run_events init_transcript
      (["hel"].map RecognitionEvent.PartialText)).1
      (RecognitionEvent.FinalText "hi")).2 = [DisplayCommand.CommitLine ("hi" ++ " ")] ∧
    (reconcile (run_events init_transcript
      (["hel"].map RecognitionEvent.PartialText)).1
      (RecognitionEvent.FinalText "hi")).1.lastInterim = "" ∧
    (reconcile (reconcile (run_events init_transcript
      (["hel"].map RecognitionEvent.PartialText)).1
      (RecognitionEvent.FinalText "hi")).1 (RecognitionEvent.PartialText "ok")).2 =
      [DisplayCommand.ReplaceTrailingLine "ok"] := by
  have h : ("hi" : String) ≠ (run_events init_transcript
      (["hel"].map RecognitionEvent.PartialText)).1.lastFinal := by decide
  exact ⟨h, (C3_commit_clears init_transcript ["hel"] "hi" h).1,
    (C3_commit_clears init_transcript ["hel"] "hi" h).2.1,
    (C3_commit_clears init_transcript ["hel"] "hi" h).2.2 "ok" (by decide)⟩

/-- Claim C4 counterexample: the claim as stated quantifies over every
state.  The state `⟨"", "x"⟩` is reachable (it results from `FinalText "x"`
on the empty state), and from it delivering `FinalText "x"` twice in a row
emits no command at all — zero `CommitLine`s, not exactly one, because the
first delivery is already suppressed by line 184's inequality test. -/
theorem C4_counterexample :
    (run_events init_transcript [RecognitionEvent.FinalText "x"]).1 = ⟨"", "x"⟩ ∧
    run_events ⟨"", "x"⟩
      [RecognitionEvent.FinalText "x", RecognitionEvent.FinalText "x"] =
      (⟨"", "x"⟩, []) := by
  decide

/-- Claim C4 (amended): for every state whose last final transcript differs
from `t`, delivering `FinalText t` twice in a row emits `CommitLine` exactly
once, the second delivery emitting nothing and leaving the state unchanged
(from a state whose last final already equals `t` both deliveries emit
nothing); and for every state and sequence of partial-text events, the
reconciler emits exactly one `ReplaceTrailingLine` per value that differs
from the running last partial transcript — starting from the state's — and
zero for repeated identical values. -/
theorem C4_duplicate_suppression :
    (∀ (s : TranscriptState) (t : String), t ≠ s.lastFinal →
      countCommit (run_events s
        [RecognitionEvent.FinalText t, RecognitionEvent.FinalText t]).2 = 1 ∧
      reconcile (reconcile s (RecognitionEvent.FinalText t)).1
        (RecognitionEvent.FinalText t) =
        ((reconcile s (RecognitionEvent.FinalText t)).1, [])) ∧
    (∀ (s : TranscriptState) (ts : List String),
      (run_events s (ts.map RecognitionEvent.PartialText)).2 =
        (dedupFrom s.lastInterim ts).map DisplayCommand.ReplaceTrailingLine) := by
  constructor
  · intro s t h
    constructor
    · simp [run_events, reconcile, receive_transcription_body, h, countCommit]
    · simp [reconcile, receive_transcription_body, h]
  · intro s ts
    exact run_interim_emissions ts s

/-- Witness for the amended C4 at a concrete state, final transcript and
partial sequence. -/
theorem C4_witness :
    ("x" ≠ init_transcript.lastFinal) ∧
    countCommit (run_events init_transcript
      [RecognitionEvent.FinalText "x", RecognitionEvent.FinalText "x"]).2 = 1 ∧
    reconcile (reconcile init_transcript (RecognitionEvent.FinalText "x")).1
      (RecognitionEvent.FinalText "x") =
      ((reconcile init_transcript (RecognitionEvent.FinalText "x")).1, []) ∧
    (run_events init_transcript
      (["a", "a"].map RecognitionEvent.PartialText)).2 =
      (dedupFrom init_transcript.lastInterim ["a", "a"]).map
        DisplayCommand.ReplaceTrailingLine := by
  have h : ("x" : String) ≠ init_transcript.lastFinal := by decide
  exact ⟨h, (C4_duplicate_suppression.1 init_transcript "x" h).1,
    (C4_duplicate_suppression.1 init_transcript "x" h).2,
    C4_duplicate_suppression.2 init_transcript ["a", "a"]⟩

/-- Claim C10: an inbound message that decodes to an object without a
`"results"` field makes the receive loop emit no display command, leaves the
transcript state and the display contents unchanged, and processing
continues with the next message. -/
theorem C10_no_results (s : TranscriptState) (m : WatsonMessage) (d : Display)
    (ms : List WatsonMessage) (h : m.results = none) :
    process_message s m = Except.ok (s, ([] : List DisplayCommand)) ∧
    applyCommands d [] = d ∧
    receive_transcription_loop s (m :: ms) = receive_transcription_loop s ms := by
  refine ⟨?_, rfl, ?_⟩
  · simp [process_message, h]
  · simp [receive_transcription_loop, process_message, h]

/-- Witness for C10 at a concrete resultless message. -/
theorem C10_witness :
    (WatsonMessage.mk none).results = none ∧
    process_message init_transcript (WatsonMessage.mk none) =
      Except.ok (init_transcript, ([] : List DisplayCommand)) ∧
    applyCommands ⟨["old"], "tail"⟩ [] = (⟨["old"], "tail"⟩ : Display) ∧
    receive_transcription_loop init_transcript [WatsonMessage.mk none] =
      receive_transcription_loop init_transcript [] :=
  ⟨rfl,
   (C10_no_results init_transcript (WatsonMessage.mk none) ⟨["old"], "tail"⟩ [] rfl).1,
   (C10_no_results init_transcript (WatsonMessage.mk none) ⟨["old"], "tail"⟩ [] rfl).2.1,
   (C10_no_results init_transcript (WatsonMessage.mk none) ⟨["old"], "tail"⟩ [] rfl).2.2⟩

/-- Applying a concatenated trace applies the pieces in order. -/
theorem applyActions_append (as bs : List SysAct) : ∀ s : SysState,
    applyActions s (as ++ bs) = applyActions (applyActions s as) bs := by
  induction as with
  | nil => intro s; rfl
  | cons a as ih => intro s; simpa [applyActions] using ih (applyAction s a)

/-- Closed form of the state change of one terminating
`connect_and_transcribe` call: independently of how many attempts failed
first, it creates exactly one new connection (the dead ones are neither
reused nor closed) and binds a freshly spawned receive loop to it; nothing
else changes. -/
theorem connect_run_apply : ∀ (f : Nat) (s : SysState),
    applyActions s (connect_and_transcribe_run f) =
      { s with nextHandle := s.nextHandle + 1
               currentHandle := some s.nextHandle
               openSockets := s.openSockets ++ [s.nextHandle]
               receiveHandle := some s.nextHandle
               receiveLoops := s.receiveLoops + 1 } := by
  intro f
  induction f with
  | zero => intro s; rfl
  | succ n ih => intro s; simpa [connect_and_transcribe_run, applyActions] using ih s

/-- No action of a `connect_and_transcribe` trace touches the audio device. -/
theorem connect_run_no_audio (f : Nat) :
    (connect_and_transcribe_run f).all (fun a => ! touchesAudioDevice a) = true := by
  induction f with
  | zero => rfl
  | succ n ih => exact ih

/-- Closed form of the receive loop's reconnect transition: one new
connection, the new receive loop bound to it, the audio fields, the capture
binding and the capture-loop count untouched, and the net number of live
receive loops unchanged (the handler's thread has left its loop; the spawned
thread enters a new one). -/
theorem on_connection_lost_closed_form (s : SysState) (c : Bool) (f : Nat) :
    on_connection_lost s c f =
      { s with nextHandle := s.nextHandle + 1
               currentHandle := some s.nextHandle
               openSockets := s.openSockets ++ [s.nextHandle]
               receiveHandle := some s.nextHandle
               receiveLoops := s.receiveLoops - 1 + 1 } := by
  cases c
  · exact connect_run_apply f { s with receiveLoops := s.receiveLoops - 1 }
  · exact connect_run_apply f { s with receiveLoops := s.receiveLoops - 1 }

/-- The capture loop never performs a connection action. -/
theorem listen_run_no_connect (es : List CaptureEvent) :
    (listen_and_stream_run es).all (fun a => ! isConnectAction a) = true := by
  induction es with
  | nil => rfl
  | cons e rest ih => cases e <;> exact ih

/-- Claim C5 counterexample: the claim says that on a send failure the
capture loop exits.  It does not: an exception raised by `ws.send` reaches
the same handler as a read failure (lines 229-231), which restarts the audio
device and re-enters the loop with the same handle (line 253), so a
subsequent iteration still reads a frame and sends it — here the trace of a
send failure followed by a successful iteration. -/
theorem C5_counterexample :
    listen_and_stream_run [CaptureEvent.sendFailure, CaptureEvent.iterOk] =
      [SysAct.printLog "Audio streaming error", SysAct.audioStopStream,
       SysAct.audioCloseStream, SysAct.sleepSeconds 1, SysAct.audioOpenStream,
       SysAct.wsSendBinary] := by
  decide

/-- Claim C5 (amended): in the capture loop, every failure — frame read or
send alike, the handler cannot tell them apart — makes the loop restart the
audio device (stop, close, reopen after a one-second pause) and continue
capturing on the same handle; the capture loop never exits of its own accord
and never performs any reconnection action itself — reconnection is driven
only by the receive loop. -/
theorem C5_capture_failures (rest es : List CaptureEvent) :
    listen_and_stream_run (CaptureEvent.frameReadFailure :: rest) =
      SysAct.printLog "Audio streaming error" ::
        restart_stream_actions ++ listen_and_stream_run rest ∧
    listen_and_stream_run (CaptureEvent.sendFailure :: rest) =
      SysAct.printLog "Audio streaming error" ::
        restart_stream_actions ++ listen_and_stream_run rest ∧
    (listen_and_stream_run es).all (fun a => ! isConnectAction a) = true :=
  ⟨rfl, rfl, listen_run_no_connect es⟩

/-- Claim C6: on a mid-stream connection loss the code starts a new
connection and a new receive loop bound to it, and the loop counts stay at
one each — but the capture loop is never restarted nor re-bound: it stays on
the dead handle 0 while the new connection is handle 1, and the dead socket
is never closed.  This contradicts the claim's "restarts both the capture
loop and the receive loop against the new handle": the new session receives
no audio.  The startup code (line 276) does pass the fresh handle to the
capture loop, so the reconnect path's discarding of `connect_and_transcribe`'s
return value (line 205) is a slip, not a design choice. -/
theorem C6_stale_capture_after_reconnect :
    (applyActions initState (startup_run 0)).captureHandle = some 0 ∧
    (applyActions initState (startup_run 0)).receiveHandle = some 0 ∧
    on_connection_lost (applyActions initState (startup_run 0)) true 0 =
      { nextHandle := 2, currentHandle := some 1, captureHandle := some 0,
        receiveHandle := some 1, openSockets := [0, 1], audioStreamOpen := true,
        audioTerminated := false, guiOpen := true, captureLoops := 1,
        receiveLoops := 1 } := by
  refine ⟨rfl, rfl, rfl⟩

/-- Claim C7: the shutdown hook `on_closing` stops and closes the audio
stream, terminates PyAudio and destroys the GUI root — but its trace
contains no websocket close (no statement in the program ever closes a
websocket), so every socket open before shutdown is still open after it,
and the loop threads are not stopped by the handler (they are daemon threads
that die only with the process).  This contradicts the claim's "releases the
SessionSocket handle, ... leaving neither the audio device nor the socket
open" and the function's own docstring "ensuring all resources are
released". -/
theorem C7_shutdown_leaves_socket (s : SysState) :
    (applyActions s on_closing_actions).audioStreamOpen = false ∧
    (applyActions s on_closing_actions).audioTerminated = true ∧
    (applyActions s on_closing_actions).guiOpen = false ∧
    (applyActions s on_closing_actions).openSockets = s.openSockets ∧
    (applyActions s on_closing_actions).captureLoops = s.captureLoops ∧
    (applyActions s on_closing_actions).receiveLoops = s.receiveLoops ∧
    on_closing_actions.all (fun a => ! isSocketClose a) = true := by
  refine ⟨rfl, rfl, rfl, rfl, rfl, rfl, rfl⟩

/-- Claim C8: every terminating `connect_and_transcribe` call sends exactly
one start-of-stream control message — the one of lines 132-138, with
action `"start"`, a raw-PCM content type at 16 kHz mono, interim results
enabled, timestamps disabled and no inactivity timeout — and every
handshake attempt carries the Authorization header formed from the base64
encoding of the fixed `"apikey:"` label followed by the credential. -/
theorem C8_handshake (failures : Nat) (key : List Nat) :
    initSends (connect_and_transcribe_run failures) = [init_message] ∧
    init_message.action = "start" ∧
    init_message.contentType = "audio/l16; rate=16000; channels=1" ∧
    init_message.interim_results = true ∧
    init_message.timestamps = false ∧
    init_message.inactivity_timeout = -1 ∧
    connect_headers key =
      ["Authorization: Basic " ++ String.mk (b64encode (apikeyTag ++ key))] := by
  refine ⟨?_, rfl, rfl, rfl, rfl, rfl, rfl⟩
  induction failures with
  | zero => rfl
  | succ n ih => simpa [connect_and_transcribe_run, initSends] using ih

/-- Claim C9: the reconnect path triggered by a mid-stream connection loss
— the receive loop's handler re-entering `connect_and_transcribe` — contains
no action touching the audio device, so across the transition the device
stream's state is unchanged and only the socket handle is replaced (the new
current handle is the freshly created one). -/
theorem C9_reconnect_audio_frame (s : SysState) (closedCleanly : Bool)
    (failures : Nat) :
    (receive_loop_exit_actions closedCleanly failures).all
      (fun a => ! touchesAudioDevice a) = true ∧
    (on_connection_lost s closedCleanly failures).audioStreamOpen =
      s.audioStreamOpen ∧
    (on_connection_lost s closedCleanly failures).audioTerminated =
      s.audioTerminated ∧
    (on_connection_lost s closedCleanly failures).currentHandle =
      some s.nextHandle ∧
    (on_connection_lost s closedCleanly failures).receiveHandle =
      some s.nextHandle := by
  refine ⟨?_, ?_, ?_, ?_, ?_⟩
  · cases closedCleanly <;> exact connect_run_no_audio failures
  · rw [on_connection_lost_closed_form]
  · rw [on_connection_lost_closed_form]
  · rw [on_connection_lost_closed_form]
  · rw [on_connection_lost_closed_form]
